import Mathlib

/-!
Verification of the product-chatbot core logic (`chatbot_app.py`):
catalog loading (`load_product_data`), product lookup (`get_product_info`),
prompt construction and response generation (`generate_chatbot_response`),
and the bounded conversation history of the interactive loop.

The external pieces (pandas, the regular-expression engine behind
`Series.str.contains`, the OpenAI client, Streamlit) are modelled as follows:
a tabular source is a list of rows of text cells; the regex engine is
modelled faithfully on the fragment of patterns built from literal
characters, the wildcard `.` and the classes `\d` / `\D` (patterns outside
this fragment map to `none` = "behaviour not modelled"); the chat API is an
injected capability from a request to a response-or-error.
-/

namespace Polchatbot

/-- One row of the catalog after `load_product_data` renamed the columns to
`["Index", "Producto", "Descripción", "Beneficios", "Aplicación",
"Recomendaciones de Uso"]`.  All cells are text. -/
structure ProductRecord where
  index : String
  producto : String
  descripcion : String
  beneficios : String
  aplicacion : String
  recomendaciones : String
  deriving DecidableEq, Repr

/-- A parsed tabular file as `pd.read_excel` returns it: the header row has
been consumed, `ncols` is the number of columns, `rows` are the remaining
data rows (cell text). -/
structure DataFrame where
  ncols : Nat
  rows : List (List String)
  deriving DecidableEq, Repr

/-- The byte source handed to `load_product_data`: absent file, a file that
cannot be read as tabular data, or a readable table. -/
inductive Source where
  | missing
  | unreadable
  | table (df : DataFrame)
  deriving DecidableEq, Repr

/-- The ways `load_product_data` raises: `FileNotFoundError`, a read failure
of `pd.read_excel`, the `ValueError` of assigning six column names to a
frame whose column count differs, and the `KeyError` of `df.drop(0)` on a
frame with no row labelled 0. -/
inductive LoadError where
  | fileNotFound
  | readError
  | columnMismatch (found : Nat)
  | dropKeyError
  deriving DecidableEq, Repr

/-- Interpret the six cells of a renamed row as a `ProductRecord`
(positionally: Index, Producto, Descripción, Beneficios, Aplicación,
Recomendaciones de Uso). -/
def rowToRecord (row : List String) : ProductRecord :=
  { index := row.getD 0 "", producto := row.getD 1 "",
    descripcion := row.getD 2 "", beneficios := row.getD 3 "",
    aplicacion := row.getD 4 "", recomendaciones := row.getD 5 "" }

/-- `load_product_data` (chatbot_app.py, lines 36–51): read the table,
assign the six fixed column names (pandas raises `ValueError` unless the
frame has exactly six columns), drop the row labelled 0 (the sentinel row;
pandas raises `KeyError` when no such row exists), keep the rest in order. -/
def load_product_data : Source → Except LoadError (List ProductRecord)
  | Source.missing => Except.error LoadError.fileNotFound
  | Source.unreadable => Except.error LoadError.readError
  | Source.table df =>
    if df.ncols = 6 then
      match df.rows with
      | [] => Except.error LoadError.dropKeyError
      | _ :: rest => Except.ok (rest.map rowToRecord)
    else Except.error (LoadError.columnMismatch df.ncols)

/-- C4: for every valid six-column tabular source (sentinel row plus N data
rows, N ≥ 0), `load_product_data` succeeds and returns exactly the N data
rows, in original order, as records; the sentinel row is excluded and an
empty result is a valid success. -/
theorem loadCatalog_rows (sentinel : List String) (dataRows : List (List String)) :
    load_product_data (Source.table ⟨6, sentinel :: dataRows⟩)
      = Except.ok (dataRows.map rowToRecord) ∧
    (dataRows.map rowToRecord).length = dataRows.length := by
  constructor
  · simp [load_product_data]
  · simp

/-- C6 counterexample: a perfectly readable table with seven columns (more
than six) makes `load_product_data` fail with the column-count `ValueError`,
contradicting the claim that every readable source with at least six
columns succeeds with the first six columns interpreted. -/
theorem loadCatalog_seven_columns_fails :
    load_product_data
      (Source.table ⟨7, [["s0", "s1", "s2", "s3", "s4", "s5", "s6"],
                         ["1", "Sealant X", "D", "B", "A", "U", "extra"]]⟩)
      = Except.error (LoadError.columnMismatch 7) := by
  rfl

/-- C6 amended: `load_product_data` succeeds exactly on readable tabular
sources that have exactly six columns and at least one row below the header
(the sentinel row); it fails when the source is missing, unreadable, has a
column count other than six (fewer or more), or lacks the sentinel row. -/
theorem loadCatalog_success_iff (src : Source) :
    (∃ cat, load_product_data src = Except.ok cat) ↔
      (∃ df, src = Source.table df ∧ df.ncols = 6 ∧ df.rows ≠ []) := by
  cases src with
  | missing => simp [load_product_data]
  | unreadable => simp [load_product_data]
  | table df =>
    by_cases h : df.ncols = 6
    · cases hr : df.rows with
      | nil => simp [load_product_data, h, hr]
      | cons r rest =>
        simp only [load_product_data, h, if_pos, hr]
        constructor
        · intro _
          exact ⟨df, rfl, h, by simp [hr]⟩
        · intro _
          exact ⟨rest.map rowToRecord, rfl⟩
    · constructor
      · intro ⟨cat, hcat⟩
        simp [load_product_data, h] at hcat
      · intro ⟨df2, hdf2, h6, _⟩
        cases hdf2
        exact absurd h6 h

/-! ## The lookup engine

`get_product_info` (lines 57–72) selects rows with
`data['Producto'].str.contains(product_name, case=False, na=False)`.
pandas passes `product_name` to `re.search` as a *regular expression* with
`re.IGNORECASE`.  We model the engine faithfully on the fragment of
patterns built from literal characters, the wildcard `.` (any character but
newline) and the one-character classes `\d` / `\D`; every other pattern
(one using a metacharacter such as `*`, `(`, `[`, or an unmodelled escape)
is mapped to `none`, meaning "behaviour not modelled here". -/

/-- Regex metacharacters other than `.` and the backslash (handled
separately): a pattern containing one of these is outside the modelled
fragment. -/
def isRegexMeta (c : Char) : Bool :=
  c == '^' || c == '$' || c == '*' || c == '+' || c == '?' || c == '\x7b' ||
  c == '\x7d' || c == '[' || c == ']' || c == '(' || c == ')' || c == '|'

/-- One token of the modelled regex fragment: a literal character, the
wildcard `.`, or the classes `\d` / `\D`. -/
inductive RTok where
  | lit (c : Char)
  | dot
  | digitClass
  | nonDigitClass
  deriving DecidableEq, Repr

/-- Parse a pattern string into fragment tokens; `none` when the pattern
uses a construct outside the modelled fragment. -/
def tokenize : List Char → Option (List RTok)
  | [] => some []
  | c :: rest =>
    if c = '\\' then
      match rest with
      | 'd' :: rest2 => (tokenize rest2).map fun ts => RTok.digitClass :: ts
      | 'D' :: rest2 => (tokenize rest2).map fun ts => RTok.nonDigitClass :: ts
      | _ => none
    else if c = '.' then (tokenize rest).map fun ts => RTok.dot :: ts
    else if isRegexMeta c then none
    else (tokenize rest).map fun ts => RTok.lit c :: ts

/-- Whether one token matches one character, under `re.IGNORECASE`
(ASCII case folding); `.` matches everything but a newline. -/
def tokMatches : RTok → Char → Bool
  | RTok.lit p, c => p.toLower == c.toLower
  | RTok.dot, c => c != '\n'
  | RTok.digitClass, c => c.isDigit
  | RTok.nonDigitClass, c => !c.isDigit

/-- Whether the token list matches a prefix of the character list (each
token consumes exactly one character, so no backtracking is needed). -/
def matchAt : List RTok → List Char → Bool
  | [], _ => true
  | _ :: _, [] => false
  | t :: ts, c :: cs => tokMatches t c && matchAt ts cs

/-- `re.search` on the fragment: try a prefix match at every position of
the string, including the position after its last character. -/
def searchTokens (toks : List RTok) : List Char → Bool
  | [] => matchAt toks []
  | c :: cs => matchAt toks (c :: cs) || searchTokens toks cs

/-- `Series.to_dict` of one renamed row (`product_row.iloc[0].to_dict()`):
the six column names paired with the record's cells, in column order. -/
def to_dict (r : ProductRecord) : List (String × String) :=
  [("Index", r.index), ("Producto", r.producto),
   ("Descripción", r.descripcion), ("Beneficios", r.beneficios),
   ("Aplicación", r.aplicacion), ("Recomendaciones de Uso", r.recomendaciones)]

/-- `get_product_info` (lines 57–72): filter the frame by the
case-insensitive regex search of `product_name` against the `Producto`
column, return the first matching row as a dict, `None` when the mask is
empty.  The outer `Option` is partiality of the model: `none` when the
pattern falls outside the modelled regex fragment (for instance an invalid
pattern, which makes the real code raise `re.error`). -/
def get_product_info (product_name : String) (data : List ProductRecord) :
    Option (Option (List (String × String))) :=
  (tokenize product_name.data).map fun toks =>
    (data.find? fun r => searchTokens toks r.producto.data).map to_dict

/-- A character that the regex engine treats as itself: not a
metacharacter, not `.`, not `\`. -/
def isPlainChar (c : Char) : Bool :=
  !isRegexMeta c && c != '.' && c != '\\'

/-- A query whose characters are all plain, so the regex engine treats it
as a literal string. -/
def isLiteralQuery (q : String) : Bool :=
  q.data.all isPlainChar

/-- Modelled from the spec's matching rule, for comparison with the code:
case-insensitive prefix test of `needle` against `hay` (ASCII folding). -/
def ciPrefixMatch : List Char → List Char → Bool
  | [], _ => true
  | _ :: _, [] => false
  | p :: ps, c :: cs => (p.toLower == c.toLower) && ciPrefixMatch ps cs

/-- Modelled from the spec's matching rule, for comparison with the code:
`hay` contains `needle` as a substring, ignoring (ASCII) case. -/
def ciContainsSubstr : List Char → List Char → Bool
  | [], needle => needle.isEmpty
  | c :: tl, needle => ciPrefixMatch needle (c :: tl) || ciContainsSubstr tl needle

theorem matchAt_map_lit (q s : List Char) :
    matchAt (q.map RTok.lit) s = ciPrefixMatch q s := by
  induction q generalizing s with
  | nil => cases s <;> rfl
  | cons p ps ih =>
    cases s with
    | nil => rfl
    | cons c cs => simp [matchAt, ciPrefixMatch, tokMatches, ih]

theorem searchTokens_map_lit (q s : List Char) :
    searchTokens (q.map RTok.lit) s = ciContainsSubstr s q := by
  induction s with
  | nil =>
    cases q with
    | nil => rfl
    | cons p ps => rfl
  | cons c cs ih =>
    simp [searchTokens, ciContainsSubstr, matchAt_map_lit, ih]

theorem tokenize_literal (q : List Char) (h : q.all isPlainChar = true) :
    tokenize q = some (q.map RTok.lit) := by
  induction q with
  | nil => rfl
  | cons c cs ih =>
    simp only [List.all_cons, Bool.and_eq_true] at h
    have hc := h.1
    have hcs := ih h.2
    simp only [isPlainChar, Bool.and_eq_true, Bool.not_eq_true', bne_iff_ne] at hc
    unfold tokenize
    rw [if_neg hc.2, if_neg hc.1.2]
    simp [hc.1.1, hcs]

/-- Shared helper: on a literal (metacharacter-free) query the code's
lookup is exactly "first record whose name contains the query as a
case-insensitive substring". -/
theorem get_product_info_literal (q : String) (data : List ProductRecord)
    (h : isLiteralQuery q = true) :
    get_product_info q data =
      some ((data.find? fun r => ciContainsSubstr r.producto.data q.data).map to_dict) := by
  unfold get_product_info
  rw [tokenize_literal q.data h]
  simp [searchTokens_map_lit]

/-- Sample catalog entries used by the concrete instances below. -/
def bluePaint : ProductRecord :=
  ⟨"1", "Blue Paint", "", "", "", ""⟩

def bluePaintExtra : ProductRecord :=
  ⟨"2", "Blue Paint Extra", "", "", "", ""⟩

def productXaz : ProductRecord :=
  ⟨"1", "xaz", "", "", "", ""⟩

def productFive : ProductRecord :=
  ⟨"1", "5", "", "", "", ""⟩

def sealantX : ProductRecord :=
  ⟨"1", "Sealant X", "D", "B", "A", "U"⟩

def widgetRecord : ProductRecord :=
  ⟨"1", "Widget Deluxe", "", "", "", ""⟩

/-- C2 counterexample: the query is fed to the regex engine, not treated as
a literal substring.  The query "x.z" selects the record named "xaz"
(`.` matches the `a`), although "xaz" does not contain "x.z" as a
substring, where the claim requires NotFound. -/
theorem findProduct_dot_counterexample :
    get_product_info "x.z" [productXaz] = some (some (to_dict productXaz)) ∧
    ciContainsSubstr "xaz".data "x.z".data = false := by
  decide

/-- C2 amended: the query string is interpreted as a regular expression
(case-insensitively); for queries containing no regex metacharacter —
none of `. \ ^ $ * + ? { } [ ] ( ) |` — the lookup returns the first
record, in catalog order, whose name contains the query as a substring
ignoring case, and NotFound (`None`) when no name contains it; in
particular `findProduct("blue", [Blue Paint, Blue Paint Extra])` returns
the first entry. -/
theorem findProduct_literal_substring (q : String) (data : List ProductRecord)
    (h : isLiteralQuery q = true) :
    get_product_info q data =
      some ((data.find? fun r => ciContainsSubstr r.producto.data q.data).map to_dict) :=
  get_product_info_literal q data h

/-- C2 witness: the Blue Paint example from the spec, through the amended
theorem. -/
theorem findProduct_literal_substring_witness :
    isLiteralQuery "blue" = true ∧
    get_product_info "blue" [bluePaint, bluePaintExtra] = some (some (to_dict bluePaint)) := by
  refine ⟨by decide, ?_⟩
  rw [findProduct_literal_substring "blue" [bluePaint, bluePaintExtra] (by decide)]
  decide

/-- C5 counterexample: the empty query is the empty regex, which matches
every name, so on a non-empty catalog `get_product_info` returns the first
record instead of the NotFound (`None`) the claim requires. -/
theorem findProduct_empty_query_counterexample :
    get_product_info "" [sealantX] = some (some (to_dict sealantX)) := by
  decide

/-- C5 amended: the lookup returns NotFound (`None`, not an exception)
whenever the pattern is in the modelled fragment and zero records match —
in particular `findProduct("nonexistent-xyz", c)` on a catalog with no such
name — but the empty query matches every record, so on a non-empty catalog
`findProduct("", c)` returns the first record rather than NotFound. -/
theorem findProduct_notfound (q : String) (data : List ProductRecord)
    (toks : List RTok) (h : tokenize q.data = some toks)
    (hnone : ∀ r ∈ data, searchTokens toks r.producto.data = false) :
    get_product_info q data = some none ∧
    get_product_info "" data = some (data.head?.map to_dict) := by
  constructor
  · unfold get_product_info
    rw [h]
    show some _ = some none
    refine congrArg some ?_
    have hf : (data.find? fun r => searchTokens toks r.producto.data) = none := by
      rw [List.find?_eq_none]
      intro r hr
      simp [hnone r hr]
    show Option.map to_dict (data.find? fun r => searchTokens toks r.producto.data) = none
    rw [hf]
    rfl
  · unfold get_product_info
    cases data with
    | nil => rfl
    | cons r rest =>
      show some _ = _
      simp only [List.find?]
      have : searchTokens [] r.producto.data = true := by
        cases hp : r.producto.data with
        | nil => rfl
        | cons c cs => rfl
      rw [this]
      rfl

/-- C5 witness: "nonexistent-xyz" against the one-record Sealant X catalog
yields NotFound, and the empty query returns that catalog's first record. -/
theorem findProduct_notfound_witness :
    tokenize "nonexistent-xyz".data = some ("nonexistent-xyz".data.map RTok.lit) ∧
    get_product_info "nonexistent-xyz" [sealantX] = some none ∧
    get_product_info "" [sealantX] = some (some (to_dict sealantX)) := by
  refine ⟨by decide, ?_⟩
  have h := findProduct_notfound "nonexistent-xyz" [sealantX]
    ("nonexistent-xyz".data.map RTok.lit) (by decide) (by decide)
  exact ⟨h.1, by rw [h.2]; rfl⟩

theorem ciPrefixMatch_congr (p₁ p₂ : List Char)
    (h : p₁.map Char.toLower = p₂.map Char.toLower) (s : List Char) :
    ciPrefixMatch p₁ s = ciPrefixMatch p₂ s := by
  induction p₁ generalizing p₂ s with
  | nil =>
    cases p₂ with
    | nil => rfl
    | cons b bs => simp at h
  | cons a as ih =>
    cases p₂ with
    | nil => simp at h
    | cons b bs =>
      simp only [List.map_cons, List.cons.injEq] at h
      cases s with
      | nil => rfl
      | cons c cs => simp [ciPrefixMatch, h.1, ih bs h.2]

theorem ciContainsSubstr_congr (s p₁ p₂ : List Char)
    (h : p₁.map Char.toLower = p₂.map Char.toLower) :
    ciContainsSubstr s p₁ = ciContainsSubstr s p₂ := by
  induction s with
  | nil =>
    have hl : p₁.length = p₂.length := by
      have := congrArg List.length h
      simpa using this
    cases p₁ <;> cases p₂ <;> simp_all [ciContainsSubstr]
  | cons c cs ih =>
    simp [ciContainsSubstr, ciPrefixMatch_congr p₁ p₂ h, ih]

/-- C8 counterexample: the pattern `\d` uppercases to `\D`, which negates
its meaning (digit vs non-digit), so on the catalog holding the product
named "5" the uppercased and lowercased runs of the query `\d` are both
defined yet give different results. -/
theorem findProduct_case_counterexample :
    get_product_info (String.mk ("\\d".data.map Char.toUpper)) [productFive]
      = some none ∧
    get_product_info (String.mk ("\\d".data.map Char.toLower)) [productFive]
      = some (some (to_dict productFive)) ∧
    String.mk ("\\d".data.map Char.toUpper) = "\\D" ∧
    String.mk ("\\d".data.map Char.toLower) = "\\d" := by
  decide

/-- C8 amended: the lookup is case-insensitive on queries free of regex
metacharacters: two metacharacter-free queries equal up to (ASCII) case —
such as "WIDGET" and "widget" — give the same result on every catalog;
for patterns using regex escapes the property fails, since case changes
the meaning of a class like `\d`. -/
theorem findProduct_case_insensitive (q₁ q₂ : String) (data : List ProductRecord)
    (h₁ : isLiteralQuery q₁ = true) (h₂ : isLiteralQuery q₂ = true)
    (hcase : q₁.data.map Char.toLower = q₂.data.map Char.toLower) :
    get_product_info q₁ data = get_product_info q₂ data := by
  rw [get_product_info_literal q₁ data h₁, get_product_info_literal q₂ data h₂]
  have hpred : (fun r : ProductRecord => ciContainsSubstr r.producto.data q₁.data)
      = fun r : ProductRecord => ciContainsSubstr r.producto.data q₂.data :=
    funext fun r => ciContainsSubstr_congr r.producto.data q₁.data q₂.data hcase
  rw [hpred]

/-- C8 witness: "WIDGET" and "widget" agree on the Widget Deluxe catalog. -/
theorem findProduct_case_insensitive_witness :
    isLiteralQuery "WIDGET" = true ∧ isLiteralQuery "widget" = true ∧
    "WIDGET".data.map Char.toLower = "widget".data.map Char.toLower ∧
    get_product_info "WIDGET" [widgetRecord] = get_product_info "widget" [widgetRecord] := by
  exact ⟨by decide, by decide, by decide,
    findProduct_case_insensitive "WIDGET" "widget" [widgetRecord]
      (by decide) (by decide) (by decide)⟩

/-! ## The prompt/response pipeline

`generate_chatbot_response` (lines 74–113): the prompt is rendered from
the product dict *before* the `try` block, so a missing key raises out of
the function (modelled by the outer `none`); the `try` block covers the
API call, the indexing `response['choices'][0]` and the final `.strip()`,
and the two `except` arms turn any failure into a returned string.  The
OpenAI client is an injected capability from a request to a
response-or-error. -/

/-- One chat message (`{"role": ..., "content": ...}`). -/
structure ChatMessage where
  role : String
  content : String
  deriving DecidableEq, Repr

/-- The request handed to `openai.ChatCompletion.create`. -/
structure ChatRequest where
  model : String
  messages : List ChatMessage
  max_tokens : Nat
  temperature : Rat
  deriving DecidableEq, Repr

/-- One generated choice of the chat response. -/
structure ChatChoice where
  message : ChatMessage
  deriving DecidableEq, Repr

/-- The chat response: a list of generated choices. -/
structure ChatResponse where
  choices : List ChatChoice
  deriving DecidableEq, Repr

/-- A failure of the external call: an `openai.error.OpenAIError` or any
other exception, each carrying its display text. -/
inductive ApiError where
  | openAIError (msg : String)
  | otherError (msg : String)
  deriving DecidableEq, Repr

/-- Python dict lookup on the row dict (keys are unique). -/
def dictGet (d : List (String × String)) (k : String) : Option String :=
  (d.find? fun kv => kv.1 == k).map Prod.snd

/-- The fixed head of the prompt template, up to the Producto value. -/
def promptIntro : String :=
  "Eres un asistente que ayuda a responder preguntas sobre productos. Usa únicamente la siguiente información para tu respuesta en español.\n\n**Nombre del Producto**: "

def segDescripcion : String := "\n**Descripción**: "

def segBeneficios : String := "\n**Beneficios**: "

def segAplicacion : String := "\n**Aplicación**: "

def segRecomendaciones : String := "\n**Recomendaciones de Uso**: "

def segPregunta : String := "\n\n**Pregunta del Usuario**: "

def segRespuesta : String := "\n**Respuesta**:"

/-- The prompt template of lines 86–96: the five field accesses on the
dict, interleaved with the fixed template text.  A missing key makes the
whole rendering `none` (a `KeyError` in the source, raised before the
`try` block). -/
def build_prompt (product_info : List (String × String)) (user_question : String) :
    Option String := do
  let producto ← dictGet product_info "Producto"
  let descripcion ← dictGet product_info "Descripción"
  let beneficios ← dictGet product_info "Beneficios"
  let aplicacion ← dictGet product_info "Aplicación"
  let recomendaciones ← dictGet product_info "Recomendaciones de Uso"
  some (promptIntro ++ (producto ++ (segDescripcion ++ (descripcion ++
    (segBeneficios ++ (beneficios ++ (segAplicacion ++ (aplicacion ++
    (segRecomendaciones ++ (recomendaciones ++ (segPregunta ++
    (user_question ++ segRespuesta))))))))))))

/-- The fixed system instruction of the two-message exchange. -/
def systemMessage : String :=
  "Eres un asistente útil y responde siempre en español."

/-- The request built at lines 100–108: model `gpt-4o-2024-08-06`, the
fixed system message plus the rendered prompt as user turn, `max_tokens`
500, `temperature` 0.7. -/
def chatbot_request (prompt : String) : ChatRequest :=
  { model := "gpt-4o-2024-08-06",
    messages := [⟨"system", systemMessage⟩, ⟨"user", prompt⟩],
    max_tokens := 500,
    temperature := 7 / 10 }

/-- The two `except` arms (lines 110–113): each failure becomes a returned
display string. -/
def errText : ApiError → String
  | ApiError.openAIError m => "Ocurrió un error al procesar tu solicitud: " ++ m
  | ApiError.otherError m => "Ocurrió un error inesperado: " ++ m

/-- `generate_chatbot_response` (lines 74–113), with the OpenAI client as
the injected capability `call`.  The outer `Option` is the uncaught
`KeyError` of the prompt rendering; everything inside the `try` block —
the call, `response['choices'][0]` (an `IndexError` on an empty choice
list, caught by the second arm) and `.strip()` — yields a string. -/
def generate_chatbot_response (call : ChatRequest → Except ApiError ChatResponse)
    (product_info : List (String × String)) (user_question : String) :
    Option String :=
  match build_prompt product_info user_question with
  | none => none
  | some prompt =>
    some (match call (chatbot_request prompt) with
      | Except.ok resp =>
        match resp.choices.head? with
        | some choice => choice.message.content.trim
        | none => "Ocurrió un error inesperado: list index out of range"
      | Except.error e => errText e)

/-- `s` starts with `p`. -/
def beginsWith (p s : String) : Prop :=
  ∃ t, s = p ++ t

/-- C1: for every record dict holding the five template fields (so the
prompt renders) and every question, the pipeline always returns an answer
string — it never raises past its boundary — and when the external call
fails the returned answer is a non-empty string carrying one of the two
error descriptions. -/
theorem answer_never_raises (call : ChatRequest → Except ApiError ChatResponse)
    (product_info : List (String × String)) (q prompt : String)
    (hp : build_prompt product_info q = some prompt) :
    (generate_chatbot_response call product_info q).isSome = true ∧
    (∀ e, call (chatbot_request prompt) = Except.error e →
      ∃ ans, generate_chatbot_response call product_info q = some ans ∧
        0 < ans.length ∧
        (beginsWith "Ocurrió un error al procesar tu solicitud: " ans ∨
         beginsWith "Ocurrió un error inesperado: " ans)) := by
  unfold generate_chatbot_response
  simp only [hp]
  constructor
  · rfl
  · intro e he
    simp only [he]
    refine ⟨errText e, rfl, ?_, ?_⟩
    · cases e with
      | openAIError m =>
        show 0 < ("Ocurrió un error al procesar tu solicitud: " ++ m).length
        rw [String.length_append]
        have h0 : 0 < "Ocurrió un error al procesar tu solicitud: ".length := by decide
        omega
      | otherError m =>
        show 0 < ("Ocurrió un error inesperado: " ++ m).length
        rw [String.length_append]
        have h0 : 0 < "Ocurrió un error inesperado: ".length := by decide
        omega
    · cases e with
      | openAIError m => exact Or.inl ⟨m, rfl⟩
      | otherError m => exact Or.inr ⟨m, rfl⟩

/-- A call that always fails, simulating a timeout of the service. -/
def failingCall : ChatRequest → Except ApiError ChatResponse :=
  fun _ => Except.error (ApiError.openAIError "Request timed out")

/-- C1 witness: a failing external call on the Sealant X record yields a
non-empty error answer instead of an exception. -/
theorem answer_never_raises_witness :
    ∃ ans, generate_chatbot_response failingCall (to_dict sealantX) "¿Cómo lo aplico?"
        = some ans ∧
      0 < ans.length ∧
      (beginsWith "Ocurrió un error al procesar tu solicitud: " ans ∨
       beginsWith "Ocurrió un error inesperado: " ans) := by
  have h := answer_never_raises failingCall (to_dict sealantX) "¿Cómo lo aplico?" _ rfl
  exact h.2 (ApiError.openAIError "Request timed out") rfl

/-- The rendered prompt for a full record, written right-associated. -/
def rendered_prompt (r : ProductRecord) (q : String) : String :=
  promptIntro ++ (r.producto ++ (segDescripcion ++ (r.descripcion ++
    (segBeneficios ++ (r.beneficios ++ (segAplicacion ++ (r.aplicacion ++
    (segRecomendaciones ++ (r.recomendaciones ++ (segPregunta ++
    (q ++ segRespuesta)))))))))))

theorem build_prompt_to_dict (r : ProductRecord) (q : String) :
    build_prompt (to_dict r) q = some (rendered_prompt r q) := by
  rfl

/-- C7: for every record and question, the pipeline renders the fixed
template embedding all five text fields of the record and the literal
question, submits it as the two-message exchange (the fixed Spanish system
instruction plus the rendered template as user turn) with model
`gpt-4o-2024-08-06`, `max_tokens` 500 and `temperature` 0.7, and on a
successful call with a single generated choice returns that choice's text
with surrounding whitespace trimmed. -/
theorem pipeline_request_shape (r : ProductRecord) (q : String) :
    ∃ p, build_prompt (to_dict r) q = some p ∧
      beginsWith promptIntro p ∧
      (∃ a b, p = a ++ (r.producto ++ b)) ∧
      (∃ a b, p = a ++ (r.descripcion ++ b)) ∧
      (∃ a b, p = a ++ (r.beneficios ++ b)) ∧
      (∃ a b, p = a ++ (r.aplicacion ++ b)) ∧
      (∃ a b, p = a ++ (r.recomendaciones ++ b)) ∧
      (∃ a b, p = a ++ (q ++ b)) ∧
      (chatbot_request p).model = "gpt-4o-2024-08-06" ∧
      (chatbot_request p).max_tokens = 500 ∧
      (chatbot_request p).temperature = 7 / 10 ∧
      (chatbot_request p).messages = [⟨"system", systemMessage⟩, ⟨"user", p⟩] ∧
      ∀ (call : ChatRequest → Except ApiError ChatResponse)
        (resp : ChatResponse) (ch : ChatChoice),
        call (chatbot_request p) = Except.ok resp → resp.choices = [ch] →
        generate_chatbot_response call (to_dict r) q = some ch.message.content.trim := by
  refine ⟨rendered_prompt r q, build_prompt_to_dict r q, ?_, ?_, ?_, ?_, ?_, ?_, ?_,
    rfl, rfl, rfl, rfl, ?_⟩
  · exact ⟨_, rfl⟩
  · exact ⟨promptIntro, _, rfl⟩
  · refine ⟨promptIntro ++ r.producto ++ segDescripcion,
      segBeneficios ++ (r.beneficios ++ (segAplicacion ++ (r.aplicacion ++
        (segRecomendaciones ++ (r.recomendaciones ++ (segPregunta ++
        (q ++ segRespuesta))))))), ?_⟩
    simp [rendered_prompt, String.append_assoc]
  · refine ⟨promptIntro ++ r.producto ++ segDescripcion ++ r.descripcion ++ segBeneficios,
      segAplicacion ++ (r.aplicacion ++ (segRecomendaciones ++ (r.recomendaciones ++
        (segPregunta ++ (q ++ segRespuesta))))), ?_⟩
    simp [rendered_prompt, String.append_assoc]
  · refine ⟨promptIntro ++ r.producto ++ segDescripcion ++ r.descripcion ++ segBeneficios ++
      r.beneficios ++ segAplicacion,
      segRecomendaciones ++ (r.recomendaciones ++ (segPregunta ++ (q ++ segRespuesta))), ?_⟩
    simp [rendered_prompt, String.append_assoc]
  · refine ⟨promptIntro ++ r.producto ++ segDescripcion ++ r.descripcion ++ segBeneficios ++
      r.beneficios ++ segAplicacion ++ r.aplicacion ++ segRecomendaciones,
      segPregunta ++ (q ++ segRespuesta), ?_⟩
    simp [rendered_prompt, String.append_assoc]
  · refine ⟨promptIntro ++ r.producto ++ segDescripcion ++ r.descripcion ++ segBeneficios ++
      r.beneficios ++ segAplicacion ++ r.aplicacion ++ segRecomendaciones ++
      r.recomendaciones ++ segPregunta,
      segRespuesta, ?_⟩
    simp [rendered_prompt, String.append_assoc]
  · intro call resp ch hcall hch
    have hhead : resp.choices.head? = some ch := by rw [hch]; rfl
    simp [generate_chatbot_response, build_prompt_to_dict, hcall, hhead]

/-- A sample generated choice with surrounding whitespace. -/
def sampleChoice : ChatChoice :=
  ⟨⟨"assistant", "  Se aplica con brocha.  "⟩⟩

/-- A call that always succeeds with the single sample choice. -/
def okCall : ChatRequest → Except ApiError ChatResponse :=
  fun _ => Except.ok ⟨[sampleChoice]⟩

/-- C7 witness: on the Sealant X record with a successful single-choice
call, the pipeline returns the choice's trimmed text. -/
theorem pipeline_request_shape_witness :
    generate_chatbot_response okCall (to_dict sealantX) "¿Cómo lo aplico?"
      = some "  Se aplica con brocha.  ".trim := by
  obtain ⟨p, hp, hi, h1, h2, h3, h4, h5, h6, hm, hmx, ht, hmsg, hgen⟩ :=
    pipeline_request_shape sealantX "¿Cómo lo aplico?"
  exact hgen okCall ⟨[sampleChoice]⟩ sampleChoice rfl rfl

/-- C10: every record coming from a successful catalog load carries, as a
dict, exactly the six keys (Index, Producto, Descripción, Beneficios,
Aplicación, Recomendaciones de Uso) in column order, so the five field
accesses of the prompt template are always defined and the pipeline never
dies with a missing-key error for loaded records. -/
theorem loaded_records_defined (src : Source) (cat : List ProductRecord)
    (_h : load_product_data src = Except.ok cat) (r : ProductRecord) (_hr : r ∈ cat)
    (q : String) (call : ChatRequest → Except ApiError ChatResponse) :
    (to_dict r).map Prod.fst =
      ["Index", "Producto", "Descripción", "Beneficios", "Aplicación",
       "Recomendaciones de Uso"] ∧
    (build_prompt (to_dict r) q).isSome = true ∧
    (generate_chatbot_response call (to_dict r) q).isSome = true := by
  refine ⟨rfl, ?_, ?_⟩
  · rw [build_prompt_to_dict]
    rfl
  · unfold generate_chatbot_response
    rw [build_prompt_to_dict]
    rfl

/-- C10 witness: a concrete one-product load, with the failing call. -/
theorem loaded_records_defined_witness :
    (to_dict sealantX).map Prod.fst =
      ["Index", "Producto", "Descripción", "Beneficios", "Aplicación",
       "Recomendaciones de Uso"] ∧
    (build_prompt (to_dict sealantX) "¿Cómo lo aplico?").isSome = true ∧
    (generate_chatbot_response failingCall (to_dict sealantX) "¿Cómo lo aplico?").isSome
      = true := by
  exact loaded_records_defined
    (Source.table ⟨6, [["s0", "s1", "s2", "s3", "s4", "s5"],
                       ["1", "Sealant X", "D", "B", "A", "U"]]⟩)
    [sealantX] rfl sealantX (by decide) "¿Cómo lo aplico?" failingCall

/-! ## The interaction loop and the bounded history

Lines 158–180: the conversation history lives in the session state; one
script run handles at most one submit.  On submit, an empty question only
warns; a failed lookup only shows an error; otherwise the pipeline runs
and `(question, answer)` is appended.  After the submit block, the history
is truncated from the front (`pop(0)`) whenever its length exceeds
`MAX_HISTORY`. -/

def MAX_HISTORY : Nat := 5

/-- Lines 177–180: drop the oldest entry when the history exceeds
`MAX_HISTORY` (a single `pop(0)`, run once per script run). -/
def truncate_conversation (conv : List (String × String)) : List (String × String) :=
  if conv.length > MAX_HISTORY then conv.tail else conv

/-- The observable outcome of one submit handled by lines 163–175. -/
inductive Outcome where
  | emptyWarning
  | notFoundError
  | answered (ans : String)
  deriving DecidableEq, Repr

/-- One script run after the submit button (lines 163–180): validate the
question (Python truthiness: only the empty string is falsy), look the
selected product up, on success generate the answer and append the
exchange, and finally apply the history truncation.  `none` models an
exception escaping the run (a pattern outside the modelled regex fragment,
or a `KeyError` while rendering the prompt). -/
def run_interaction (call : ChatRequest → Except ApiError ChatResponse)
    (catalog : List ProductRecord) (selected_product user_question : String)
    (conv : List (String × String)) :
    Option (List (String × String) × Outcome) :=
  if user_question = "" then
    some (truncate_conversation conv, Outcome.emptyWarning)
  else
    match get_product_info selected_product catalog with
    | none => none
    | some none => some (truncate_conversation conv, Outcome.notFoundError)
    | some (some product_info) =>
      if product_info.isEmpty then
        some (truncate_conversation conv, Outcome.notFoundError)
      else
        match generate_chatbot_response call product_info user_question with
        | none => none
        | some answer =>
          some (truncate_conversation (conv ++ [(user_question, answer)]),
            Outcome.answered answer)

theorem truncate_of_le (conv : List (String × String))
    (h : conv.length ≤ MAX_HISTORY) : truncate_conversation conv = conv := by
  unfold truncate_conversation
  rw [if_neg]
  omega

/-- C3: starting from a history within the bound, appending an entry and
truncating keeps the history at no more than 5 entries; appending a 6th
entry drops exactly the oldest and keeps entries 2–6 in order, while an
append within the bound drops nothing; and every modelled interaction run
leaves the history within the bound. -/
theorem history_fifo_bound (conv : List (String × String)) (entry : String × String)
    (h : conv.length ≤ MAX_HISTORY) :
    (truncate_conversation (conv ++ [entry])).length ≤ MAX_HISTORY ∧
    (conv.length = MAX_HISTORY →
      truncate_conversation (conv ++ [entry]) = conv.tail ++ [entry]) ∧
    (conv.length < MAX_HISTORY →
      truncate_conversation (conv ++ [entry]) = conv ++ [entry]) ∧
    (∀ call catalog sel q conv2 out,
      run_interaction call catalog sel q conv = some (conv2, out) →
      conv2.length ≤ MAX_HISTORY) := by
  have hlen : (conv ++ [entry]).length = conv.length + 1 := by simp
  refine ⟨?_, ?_, ?_, ?_⟩
  · unfold truncate_conversation
    by_cases hgt : (conv ++ [entry]).length > MAX_HISTORY
    · rw [if_pos hgt]
      simp only [List.length_tail]
      omega
    · rw [if_neg hgt]
      omega
  · intro h5
    unfold truncate_conversation
    rw [if_pos (by omega)]
    cases conv with
    | nil => simp [MAX_HISTORY] at h5
    | cons a tl => rfl
  · intro hlt
    unfold truncate_conversation
    rw [if_neg (by omega)]
  · intro call catalog sel q conv2 out hrun
    unfold run_interaction at hrun
    by_cases hq : q = ""
    · rw [if_pos hq] at hrun
      have : conv2 = truncate_conversation conv := by
        have := congrArg Prod.fst (Option.some.inj hrun)
        exact this.symm
      rw [this, truncate_of_le conv h]
      exact h
    · rw [if_neg hq] at hrun
      cases hlook : get_product_info sel catalog with
      | none => rw [hlook] at hrun; cases hrun
      | some inner =>
        rw [hlook] at hrun
        cases inner with
        | none =>
          have : conv2 = truncate_conversation conv := by
            have := congrArg Prod.fst (Option.some.inj hrun)
            exact this.symm
          rw [this, truncate_of_le conv h]
          exact h
        | some product_info =>
          simp only [] at hrun
          by_cases hemp : product_info.isEmpty
          · rw [if_pos hemp] at hrun
            have : conv2 = truncate_conversation conv := by
              have := congrArg Prod.fst (Option.some.inj hrun)
              exact this.symm
            rw [this, truncate_of_le conv h]
            exact h
          · rw [if_neg hemp] at hrun
            cases hgen : generate_chatbot_response call product_info q with
            | none => rw [hgen] at hrun; cases hrun
            | some answer =>
              rw [hgen] at hrun
              have : conv2 = truncate_conversation (conv ++ [(q, answer)]) := by
                have := congrArg Prod.fst (Option.some.inj hrun)
                exact this.symm
              rw [this]
              unfold truncate_conversation
              by_cases hgt : (conv ++ [(q, answer)]).length > MAX_HISTORY
              · rw [if_pos hgt]
                simp only [List.length_tail]
                simp at hgt ⊢
                omega
              · rw [if_neg hgt]
                simp at hgt
                simp
                omega

/-- A full five-entry history. -/
def fullHistory : List (String × String) :=
  [("q1", "a1"), ("q2", "a2"), ("q3", "a3"), ("q4", "a4"), ("q5", "a5")]

/-- C3 witness: appending a 6th entry to a full five-entry history keeps
the bound and drops exactly the first entry. -/
theorem history_fifo_bound_witness :
    fullHistory.length ≤ MAX_HISTORY ∧
    (truncate_conversation (fullHistory ++ [("q6", "a6")])).length ≤ MAX_HISTORY ∧
    truncate_conversation (fullHistory ++ [("q6", "a6")])
      = [("q2", "a2"), ("q3", "a3"), ("q4", "a4"), ("q5", "a5"), ("q6", "a6")] := by
  have h := history_fifo_bound fullHistory ("q6", "a6") (by decide)
  refine ⟨by decide, h.1, ?_⟩
  rw [h.2.1 (by decide)]
  rfl

/-- C9: per user interaction, an empty question leaves the history
untouched and only warns (the pipeline is not invoked: the result does not
depend on the external call); a NotFound lookup leaves the history
untouched and only shows the error; and the history changes only in the
answered outcome, by appending the (question, generated answer) exchange
after a successful lookup and a completed generation. -/
theorem interaction_frame (call : ChatRequest → Except ApiError ChatResponse)
    (catalog : List ProductRecord) (selected : String)
    (conv : List (String × String)) (h : conv.length ≤ MAX_HISTORY) :
    run_interaction call catalog selected "" conv
      = some (conv, Outcome.emptyWarning) ∧
    (∀ q, q ≠ "" → get_product_info selected catalog = some none →
      run_interaction call catalog selected q conv
        = some (conv, Outcome.notFoundError)) ∧
    (∀ q conv2 out,
      run_interaction call catalog selected q conv = some (conv2, out) →
      conv2 ≠ conv →
      ∃ product_info answer,
        get_product_info selected catalog = some (some product_info) ∧
        generate_chatbot_response call product_info q = some answer ∧
        out = Outcome.answered answer ∧
        conv2 = truncate_conversation (conv ++ [(q, answer)])) := by
  refine ⟨?_, ?_, ?_⟩
  · unfold run_interaction
    rw [if_pos rfl, truncate_of_le conv h]
  · intro q hq hlook
    unfold run_interaction
    rw [if_neg hq, hlook, truncate_of_le conv h]
  · intro q conv2 out hrun hne
    unfold run_interaction at hrun
    by_cases hq : q = ""
    · rw [if_pos hq, truncate_of_le conv h] at hrun
      exact absurd (congrArg Prod.fst (Option.some.inj hrun)).symm hne
    · rw [if_neg hq] at hrun
      cases hlook : get_product_info selected catalog with
      | none => rw [hlook] at hrun; cases hrun
      | some inner =>
        rw [hlook] at hrun
        cases inner with
        | none =>
          rw [truncate_of_le conv h] at hrun
          exact absurd (congrArg Prod.fst (Option.some.inj hrun)).symm hne
        | some product_info =>
          simp only [] at hrun
          by_cases hemp : product_info.isEmpty
          · rw [if_pos hemp, truncate_of_le conv h] at hrun
            exact absurd (congrArg Prod.fst (Option.some.inj hrun)).symm hne
          · rw [if_neg hemp] at hrun
            cases hgen : generate_chatbot_response call product_info q with
            | none => rw [hgen] at hrun; cases hrun
            | some answer =>
              rw [hgen] at hrun
              have hpair := Option.some.inj hrun
              exact ⟨product_info, answer, rfl, hgen,
                (congrArg Prod.snd hpair).symm,
                (congrArg Prod.fst hpair).symm⟩

/-- C9 witness: with the Sealant X catalog and a failing call, the empty
question warns and leaves the empty history unchanged, the lookup miss
leaves it unchanged, and a successful exchange is appended. -/
theorem interaction_frame_witness :
    run_interaction failingCall [sealantX] "Sealant X" "" []
      = some ([], Outcome.emptyWarning) ∧
    run_interaction failingCall [] "Sealant X" "¿Cómo lo aplico?" []
      = some ([], Outcome.notFoundError) := by
  constructor
  · exact (interaction_frame failingCall [sealantX] "Sealant X" [] (by decide)).1
  · exact (interaction_frame failingCall [] "Sealant X" [] (by decide)).2.1
      "¿Cómo lo aplico?" (by decide) (by decide)

end Polchatbot
